import Mathlib

/-!
Shallow embedding of the AutoLight-Analyzer results workflow
(src/src/pages/Results.tsx) and upload fixture generation
(src/src/pages/Upload.tsx), with the record types of src/src/lib/supabase.ts.
JavaScript numbers are modelled as rationals (prices, lux) and naturals
(quantities, counts); nullable references as Option; the `catch` path of a
failed persistence call as an explicit Boolean success flag on the operation.
-/

/-- Catalog entry, from the FixtureModel interface in src/src/lib/supabase.ts. -/
structure FixtureModel where
  id : String
  model_name : String
  manufacturer : String
  fixture_type : String
  wattage : ℚ
  lumens : ℚ
  unit_price : ℚ
  description : String
deriving Repr, DecidableEq

/-- A fixture row as returned by the fixtures query in loadProjectData:
the Fixture interface of supabase.ts together with the joined
selected_model record (null when the foreign key resolves to nothing). -/
structure Fixture where
  id : String
  project_id : String
  room_name : String
  detected_symbol : String
  selected_model_id : String
  quantity : ℕ
  lux_level : ℚ
  selected_model : Option FixtureModel
deriving Repr, DecidableEq

/-- The ExtendedFixture interface of Results.tsx: a fixture enriched with
its transient recommendation list and visibility flag. -/
structure ExtendedFixture where
  id : String
  project_id : String
  room_name : String
  detected_symbol : String
  selected_model_id : String
  quantity : ℕ
  lux_level : ℚ
  selected_model : Option FixtureModel
  recommendations : List FixtureModel
  showRecommendations : Bool
deriving Repr, DecidableEq

/-- The price a fixture contributes per unit:
`fixture.selected_model?.unit_price || 0` (Results.tsx line 88). -/
def resolvedPrice (fixture : ExtendedFixture) : ℚ :=
  match fixture.selected_model with
  | some m => m.unit_price
  | none => 0

/-- One fixture's line contribution, `price * fixture.quantity`
(Results.tsx line 89). -/
def lineCost (fixture : ExtendedFixture) : ℚ :=
  resolvedPrice fixture * fixture.quantity

/-- calculateTotalCost of Results.tsx lines 86-92: the reduce over the
fixture list, starting from 0, adding `(selected_model?.unit_price || 0) *
quantity` at each element. -/
def calculateTotalCost (fixturesList : List ExtendedFixture) : ℚ :=
  fixturesList.foldl (fun sum fixture => sum + lineCost fixture) 0

/-- Folding the running sum equals the sum of the mapped line costs. -/
theorem foldl_lineCost (a : ℚ) (L : List ExtendedFixture) :
    L.foldl (fun sum fixture => sum + lineCost fixture) a
      = a + (L.map lineCost).sum := by
  induction L generalizing a with
  | nil => simp
  | cons f t ih => simp [List.foldl_cons, ih (a + lineCost f)]; ring

/-- calculateTotalCost is the sum of the per-fixture line costs. -/
theorem calculateTotalCost_eq_sum (L : List ExtendedFixture) :
    calculateTotalCost L = (L.map lineCost).sum := by
  simpa [calculateTotalCost] using foldl_lineCost 0 L

/-- Concrete fixture for the spec scenario: quantity 2, unit price 45.99. -/
def scenarioFixtureA : ExtendedFixture :=
  { id := "f-a", project_id := "p1", room_name := "Office 1",
    detected_symbol := "LIGHT_01", selected_model_id := "m-a", quantity := 2,
    lux_level := 400,
    selected_model := some
      { id := "m-a", model_name := "Panel A", manufacturer := "Acme",
        fixture_type := "LED Panel", wattage := 40, lumens := 4000,
        unit_price := 4599/100, description := "a" },
    recommendations := [], showRecommendations := false }

/-- Concrete fixture for the spec scenario: quantity 1, unit price 12.99. -/
def scenarioFixtureB : ExtendedFixture :=
  { id := "f-b", project_id := "p1", room_name := "Lobby",
    detected_symbol := "LIGHT_02", selected_model_id := "m-b", quantity := 1,
    lux_level := 300,
    selected_model := some
      { id := "m-b", model_name := "Bulb B", manufacturer := "Acme",
        fixture_type := "Downlight", wattage := 9, lumens := 800,
        unit_price := 1299/100, description := "b" },
    recommendations := [], showRecommendations := false }

/-- C1: calculateTotalCost returns the sum over the list of (the selected
model's unit price, or 0 when the fixture has no resolved model) times the
quantity; the empty list totals 0; a fixture with no resolved model
contributes zero; and the two-fixture scenario [{qty 2, price 45.99},
{qty 1, price 12.99}] totals 104.97. As a total Lean function it raises no
error on any input. -/
theorem C1_calculateTotalCost_correct :
    (∀ L : List ExtendedFixture, calculateTotalCost L = (L.map lineCost).sum)
    ∧ calculateTotalCost [] = 0
    ∧ (∀ f : ExtendedFixture, f.selected_model = none → lineCost f = 0)
    ∧ calculateTotalCost [scenarioFixtureA, scenarioFixtureB] = 10497/100 := by
  refine ⟨calculateTotalCost_eq_sum, rfl, ?_, by norm_num [calculateTotalCost,
    scenarioFixtureA, scenarioFixtureB, lineCost, resolvedPrice]⟩
  intro f hf
  simp [lineCost, resolvedPrice, hf]

/-- Witness for C1: the no-model clause applied at a concrete fixture. -/
theorem C1_witness :
    lineCost { scenarioFixtureA with selected_model := none } = 0 :=
  C1_calculateTotalCost_correct.2.2.1 _ rfl

/-- One `update('fixtures', {selected_model_id}, eq('id', fixtureId))` call
issued to the record store by handleModelChange (Results.tsx lines 96-99). -/
structure UpdateCall where
  fixtureId : String
  newModelId : String
deriving Repr, DecidableEq

/-- The component state of the Results view: the fixtures list, the catalog
cache, the displayed total, and the log of store update calls issued. -/
structure ResultsState where
  fixtures : List ExtendedFixture
  allModels : List FixtureModel
  totalCost : ℚ
  calls : List UpdateCall
deriving Repr, DecidableEq

/-- Enrichment of one loaded fixture in loadProjectData (Results.tsx lines
60-75): recommendations are the catalog models of the same fixture_type as
the currently selected model, excluding the selected model id, truncated to
the first 3; visibility starts false. When the fixture has no resolved model
`fixture.selected_model?.fixture_type` is undefined and the strict equality
against every model's fixture_type fails, so the list is empty. -/
def initFixture (modelsData : List FixtureModel) (fixture : Fixture) :
    ExtendedFixture :=
  let currentType : Option String := fixture.selected_model.map (·.fixture_type)
  let recommendations :=
    (modelsData.filter (fun model =>
      (some model.fixture_type == currentType)
        && !(model.id == fixture.selected_model_id))).take 3
  { id := fixture.id, project_id := fixture.project_id,
    room_name := fixture.room_name, detected_symbol := fixture.detected_symbol,
    selected_model_id := fixture.selected_model_id,
    quantity := fixture.quantity, lux_level := fixture.lux_level,
    selected_model := fixture.selected_model,
    recommendations := recommendations, showRecommendations := false }

/-- The state loadProjectData establishes (Results.tsx lines 60-78): fixtures
enriched with recommendations, the catalog cached, and the total recomputed
from the enriched list. No update calls have been issued yet. -/
def initState (fixturesData : List Fixture) (modelsData : List FixtureModel) :
    ResultsState :=
  let fixturesWithRecommendations := fixturesData.map (initFixture modelsData)
  { fixtures := fixturesWithRecommendations,
    allModels := modelsData,
    totalCost := calculateTotalCost fixturesWithRecommendations,
    calls := [] }

/-- The per-element body of the `fixtures.map` in handleModelChange
(Results.tsx lines 104-108): replace selected_model_id and selected_model on
the fixture matching the id, leave every other fixture as it is. -/
def applySelection (fixtureId newModelId : String)
    (newModel : Option FixtureModel) (fixture : ExtendedFixture) :
    ExtendedFixture :=
  if fixture.id == fixtureId then
    { fixture with selected_model_id := newModelId,
                   selected_model := newModel }
  else fixture

/-- handleModelChange of Results.tsx lines 94-115. The store update is issued
first; `persistOk` models whether it succeeds. On failure the thrown error is
caught after no local mutation, so only the call log grows. On success the
new model is looked up in the catalog cache (`allModels.find`), the one
matching fixture's selected_model_id and selected_model are replaced, and the
total is recomputed. -/
def handleModelChange (s : ResultsState) (fixtureId newModelId : String)
    (persistOk : Bool) : ResultsState :=
  let logged := { s with calls := s.calls ++ [⟨fixtureId, newModelId⟩] }
  if persistOk then
    let newModel := s.allModels.find? (fun m => m.id == newModelId)
    let updatedFixtures :=
      s.fixtures.map (applySelection fixtureId newModelId newModel)
    { logged with fixtures := updatedFixtures,
                  totalCost := calculateTotalCost updatedFixtures }
  else logged

/-- The per-element body of the `fixtures.map` in toggleRecommendations
(Results.tsx lines 119-124): flip showRecommendations on the fixture
matching the id. -/
def toggleFlag (fixtureId : String) (fixture : ExtendedFixture) :
    ExtendedFixture :=
  if fixture.id == fixtureId then
    { fixture with showRecommendations := !fixture.showRecommendations }
  else fixture

/-- toggleRecommendations of Results.tsx lines 117-125: flips the
showRecommendations flag of the fixtures matching the id; nothing else in the
state is touched and no store call is issued. -/
def toggleRecommendations (s : ResultsState) (fixtureId : String) :
    ResultsState :=
  { s with fixtures := s.fixtures.map (toggleFlag fixtureId) }

/-- States a results session can reach: the initial load followed by any
sequence of handleModelChange (with either persistence outcome) and
toggleRecommendations events. -/
inductive Reachable : ResultsState → Prop
  | init (fixturesData : List Fixture) (modelsData : List FixtureModel) :
      Reachable (initState fixturesData modelsData)
  | modelChange (s : ResultsState) (fixtureId newModelId : String)
      (persistOk : Bool) (h : Reachable s) :
      Reachable (handleModelChange s fixtureId newModelId persistOk)
  | toggle (s : ResultsState) (fixtureId : String) (h : Reachable s) :
      Reachable (toggleRecommendations s fixtureId)

/-- toggleFlag reads and writes only showRecommendations, so the line cost
is unchanged. -/
theorem lineCost_toggleFlag (fid : String) (f : ExtendedFixture) :
    lineCost (toggleFlag fid f) = lineCost f := by
  unfold toggleFlag
  split <;> rfl

/-- The toggle map leaves every line cost unchanged, so the total of the
toggled list is the total of the original list. -/
theorem calculateTotalCost_toggle (L : List ExtendedFixture) (fid : String) :
    calculateTotalCost (L.map (toggleFlag fid)) = calculateTotalCost L := by
  simp only [calculateTotalCost_eq_sum, List.map_map]
  congr 1
  apply List.map_congr_left
  intro f _
  exact lineCost_toggleFlag fid f

/-- C2: at every reachable state of a results session — hence in particular
after the initial load and after every successful handleModelChange — the
displayed total cost equals calculateTotalCost of the in-memory fixtures:
the sum of quantity times selected unit price, unresolved models
contributing zero. -/
theorem C2_totalCost_invariant (s : ResultsState) (h : Reachable s) :
    s.totalCost = calculateTotalCost s.fixtures := by
  induction h with
  | init fixturesData modelsData => rfl
  | modelChange s fid mid ok _ ih =>
      cases ok with
      | false => simpa [handleModelChange] using ih
      | true => simp [handleModelChange]
  | toggle s fid _ ih =>
      simp only [toggleRecommendations]
      rw [calculateTotalCost_toggle]
      exact ih

/-- Witness for C2: the invariant at a concrete freshly loaded state. -/
theorem C2_witness :
    (initState [] []).totalCost = calculateTotalCost (initState [] []).fixtures :=
  C2_totalCost_invariant _ (Reachable.init [] [])

/-- C4: a handleModelChange whose persistence update fails leaves the
in-memory fixtures list, the displayed total cost and the catalog cache
identical to their pre-call values; only the log of issued (and failed)
store calls records the attempt. -/
theorem C4_failure_leaves_state (s : ResultsState) (fixtureId newModelId : String) :
    (handleModelChange s fixtureId newModelId false).fixtures = s.fixtures
    ∧ (handleModelChange s fixtureId newModelId false).totalCost = s.totalCost
    ∧ (handleModelChange s fixtureId newModelId false).allModels = s.allModels := by
  refine ⟨rfl, rfl, rfl⟩

/-- applySelection leaves a fixture whose id does not match untouched. -/
theorem applySelection_skip (fid mid : String) (nm : Option FixtureModel)
    (f : ExtendedFixture) (h : f.id ≠ fid) :
    applySelection fid mid nm f = f := by
  unfold applySelection
  rw [if_neg]
  simpa using h

/-- applySelection on the matching fixture replaces exactly
selected_model_id and selected_model. -/
theorem applySelection_hit (fid mid : String) (nm : Option FixtureModel)
    (f : ExtendedFixture) (h : f.id = fid) :
    applySelection fid mid nm f
      = { f with selected_model_id := mid, selected_model := nm } := by
  unfold applySelection
  rw [if_pos]
  simpa using h

/-- Mapping applySelection over a list containing no matching id is the
identity. -/
theorem map_applySelection_skip (fid mid : String) (nm : Option FixtureModel)
    (L : List ExtendedFixture) (h : ∀ g ∈ L, g.id ≠ fid) :
    L.map (applySelection fid mid nm) = L := by
  induction L with
  | nil => rfl
  | cons a t ih =>
      rw [List.map_cons, applySelection_skip fid mid nm a
        (h a (List.mem_cons_self a t)),
        ih (fun g hg => h g (List.mem_cons_of_mem a hg))]

/-- toggleFlag leaves a fixture whose id does not match untouched. -/
theorem toggleFlag_skip (fid : String) (f : ExtendedFixture) (h : f.id ≠ fid) :
    toggleFlag fid f = f := by
  unfold toggleFlag
  rw [if_neg]
  simpa using h

/-- toggleFlag on the matching fixture flips exactly showRecommendations. -/
theorem toggleFlag_hit (fid : String) (f : ExtendedFixture) (h : f.id = fid) :
    toggleFlag fid f
      = { f with showRecommendations := !f.showRecommendations } := by
  unfold toggleFlag
  rw [if_pos]
  simpa using h

/-- Mapping toggleFlag over a list containing no matching id is the
identity. -/
theorem map_toggleFlag_skip (fid : String) (L : List ExtendedFixture)
    (h : ∀ g ∈ L, g.id ≠ fid) :
    L.map (toggleFlag fid) = L := by
  induction L with
  | nil => rfl
  | cons a t ih =>
      rw [List.map_cons, toggleFlag_skip fid a (h a (List.mem_cons_self a t)),
        ih (fun g hg => h g (List.mem_cons_of_mem a hg))]

/-- Two toggleFlag applications cancel on every fixture. -/
theorem toggleFlag_toggleFlag (fid : String) (f : ExtendedFixture) :
    toggleFlag fid (toggleFlag fid f) = f := by
  by_cases h : (f.id == fid) = true
  · simp [toggleFlag, h, Bool.not_not]
  · simp [toggleFlag, h]

/-- C5: handleModelChange with a model id present in the catalog, on
persistence success, rewrites exactly the matching fixture — only its
selected_model_id and selected_model change, every listed sibling field is
preserved — and leaves every other fixture and the catalog cache unchanged.
The fixture list is given as pre ++ f :: post with the target id occurring
only at f. -/
theorem C5_updates_exactly_one_fixture (s : ResultsState)
    (fid mid : String) (pre post : List ExtendedFixture)
    (f : ExtendedFixture) (newM : FixtureModel)
    (hs : s.fixtures = pre ++ f :: post)
    (hfid : f.id = fid)
    (hpre : ∀ g ∈ pre, g.id ≠ fid)
    (hpost : ∀ g ∈ post, g.id ≠ fid)
    (hfind : s.allModels.find? (fun m => m.id == mid) = some newM) :
    (handleModelChange s fid mid true).fixtures
        = pre ++ { f with selected_model_id := mid,
                          selected_model := some newM } :: post
    ∧ (handleModelChange s fid mid true).allModels = s.allModels
    ∧ ∀ f' : ExtendedFixture,
        f' = { f with selected_model_id := mid, selected_model := some newM } →
        f'.recommendations = f.recommendations
        ∧ f'.showRecommendations = f.showRecommendations
        ∧ f'.quantity = f.quantity
        ∧ f'.room_name = f.room_name
        ∧ f'.detected_symbol = f.detected_symbol
        ∧ f'.lux_level = f.lux_level := by
  refine ⟨?_, rfl, ?_⟩
  · have hunfold : (handleModelChange s fid mid true).fixtures
        = s.fixtures.map
            (applySelection fid mid (s.allModels.find? (fun m => m.id == mid))) :=
      rfl
    rw [hunfold, hfind, hs, List.map_append, List.map_cons,
      map_applySelection_skip fid mid (some newM) pre hpre,
      map_applySelection_skip fid mid (some newM) post hpost,
      applySelection_hit fid mid (some newM) f hfid]
  · rintro f' rfl
    exact ⟨rfl, rfl, rfl, rfl, rfl, rfl⟩

/-- Witness data for the operation claims: a two-fixture state whose ids are
distinct, with a second catalog model of the same type available. -/
def modelA : FixtureModel :=
  { id := "mA", model_name := "Panel A", manufacturer := "Acme",
    fixture_type := "LED Panel", wattage := 40, lumens := 4000,
    unit_price := 20, description := "a" }

def modelB : FixtureModel :=
  { id := "mB", model_name := "Panel B", manufacturer := "Acme",
    fixture_type := "LED Panel", wattage := 36, lumens := 3600,
    unit_price := 30, description := "b" }

def fixtureOne : Fixture :=
  { id := "f1", project_id := "p1", room_name := "Office 1",
    detected_symbol := "LIGHT_01", selected_model_id := "mA", quantity := 2,
    lux_level := 400, selected_model := some modelA }

def fixtureTwo : Fixture :=
  { id := "f2", project_id := "p1", room_name := "Lobby",
    detected_symbol := "LIGHT_02", selected_model_id := "mB", quantity := 3,
    lux_level := 350, selected_model := some modelB }

def demoState : ResultsState := initState [fixtureOne, fixtureTwo] [modelA, modelB]

def demoFixOne : ExtendedFixture := initFixture [modelA, modelB] fixtureOne

def demoFixTwo : ExtendedFixture := initFixture [modelA, modelB] fixtureTwo

/-- Witness for C5 at the concrete two-fixture state: changing fixture f1 to
catalog model mB yields exactly the predicted list. -/
theorem C5_witness :
    (handleModelChange demoState "f1" "mB" true).fixtures
        = [] ++ { demoFixOne with selected_model_id := "mB",
                                  selected_model := some modelB } :: [demoFixTwo]
    ∧ (handleModelChange demoState "f1" "mB" true).allModels = demoState.allModels
    ∧ ∀ f' : ExtendedFixture,
        f' = { demoFixOne with selected_model_id := "mB",
                               selected_model := some modelB } →
        f'.recommendations = demoFixOne.recommendations
        ∧ f'.showRecommendations = demoFixOne.showRecommendations
        ∧ f'.quantity = demoFixOne.quantity
        ∧ f'.room_name = demoFixOne.room_name
        ∧ f'.detected_symbol = demoFixOne.detected_symbol
        ∧ f'.lux_level = demoFixOne.lux_level :=
  C5_updates_exactly_one_fixture demoState "f1" "mB" [] [demoFixTwo]
    demoFixOne modelB rfl rfl (by decide) (by decide) (by decide)

/-- Mapping toggleFlag twice over any fixture list is the identity. -/
theorem map_toggleFlag_involutive (fid : String) (L : List ExtendedFixture) :
    (L.map (toggleFlag fid)).map (toggleFlag fid) = L := by
  induction L with
  | nil => rfl
  | cons a t ih => rw [List.map_cons, List.map_cons, toggleFlag_toggleFlag, ih]

/-- C7: toggleRecommendations is a local involution. A single call flips the
showRecommendations flag of exactly the fixture with the given id (the list
is given as pre ++ f :: post with the id occurring only at f), changes no
other field — the catalog, the displayed total and the store-call log are
untouched, so no store call is issued — and a second call with the same id
restores the entire state. -/
theorem C7_toggle_involution (s : ResultsState) (fid : String)
    (pre post : List ExtendedFixture) (f : ExtendedFixture)
    (hs : s.fixtures = pre ++ f :: post)
    (hfid : f.id = fid)
    (hpre : ∀ g ∈ pre, g.id ≠ fid)
    (hpost : ∀ g ∈ post, g.id ≠ fid) :
    (toggleRecommendations s fid).fixtures
        = pre ++ { f with showRecommendations := !f.showRecommendations } :: post
    ∧ (toggleRecommendations s fid).allModels = s.allModels
    ∧ (toggleRecommendations s fid).totalCost = s.totalCost
    ∧ (toggleRecommendations s fid).calls = s.calls
    ∧ toggleRecommendations (toggleRecommendations s fid) fid = s := by
  refine ⟨?_, rfl, rfl, rfl, ?_⟩
  · have hunfold : (toggleRecommendations s fid).fixtures
        = s.fixtures.map (toggleFlag fid) := rfl
    rw [hunfold, hs, List.map_append, List.map_cons,
      map_toggleFlag_skip fid pre hpre, map_toggleFlag_skip fid post hpost,
      toggleFlag_hit fid f hfid]
  · have hunfold : toggleRecommendations (toggleRecommendations s fid) fid
        = { s with fixtures := (s.fixtures.map (toggleFlag fid)).map
                     (toggleFlag fid) } := rfl
    rw [hunfold, map_toggleFlag_involutive]

/-- Witness for C7 at the concrete two-fixture state, toggling fixture f2. -/
theorem C7_witness :
    (toggleRecommendations demoState "f2").fixtures
        = [demoFixOne]
            ++ { demoFixTwo with
                   showRecommendations := !demoFixTwo.showRecommendations } :: []
    ∧ (toggleRecommendations demoState "f2").allModels = demoState.allModels
    ∧ (toggleRecommendations demoState "f2").totalCost = demoState.totalCost
    ∧ (toggleRecommendations demoState "f2").calls = demoState.calls
    ∧ toggleRecommendations (toggleRecommendations demoState "f2") "f2"
        = demoState :=
  C7_toggle_involution demoState "f2" [demoFixOne] [] demoFixTwo
    rfl rfl (by decide) (by decide)

/-- C6: when the target fixture's current selection resolves to a model of
price oldPrice and the catalog lookup of the new id yields a model of price
newPrice, a successful handleModelChange moves the displayed total (which
equalled the recomputed total before the call) by exactly
(newPrice - oldPrice) × quantity, and every other fixture — hence its
contribution — is unchanged. -/
theorem C6_cost_delta (s : ResultsState) (fid mid : String)
    (pre post : List ExtendedFixture) (f : ExtendedFixture)
    (oldM newM : FixtureModel)
    (hs : s.fixtures = pre ++ f :: post)
    (hfid : f.id = fid)
    (hpre : ∀ g ∈ pre, g.id ≠ fid)
    (hpost : ∀ g ∈ post, g.id ≠ fid)
    (hold : f.selected_model = some oldM)
    (hfind : s.allModels.find? (fun m => m.id == mid) = some newM)
    (hinv : s.totalCost = calculateTotalCost s.fixtures) :
    (handleModelChange s fid mid true).totalCost
        = s.totalCost + (newM.unit_price - oldM.unit_price) * f.quantity
    ∧ (handleModelChange s fid mid true).fixtures
        = pre ++ { f with selected_model_id := mid,
                          selected_model := some newM } :: post := by
  have hfix := (C5_updates_exactly_one_fixture s fid mid pre post f newM
    hs hfid hpre hpost hfind).1
  refine ⟨?_, hfix⟩
  have hunfold : (handleModelChange s fid mid true).totalCost
      = calculateTotalCost (handleModelChange s fid mid true).fixtures := rfl
  rw [hunfold, hfix, hinv, hs, calculateTotalCost_eq_sum,
    calculateTotalCost_eq_sum, List.map_append, List.map_append,
    List.map_cons, List.map_cons, List.sum_append, List.sum_append,
    List.sum_cons, List.sum_cons]
  have hnew : lineCost { f with selected_model_id := mid,
                                selected_model := some newM }
      = newM.unit_price * f.quantity := rfl
  have holdc : lineCost f = oldM.unit_price * f.quantity := by
    simp [lineCost, resolvedPrice, hold]
  rw [hnew, holdc]
  ring

/-- Witness for C6: at the concrete state, swapping fixture f1 (price 20,
quantity 2) to model mB (price 30) raises the total by 20. -/
theorem C6_witness :
    (handleModelChange demoState "f1" "mB" true).totalCost
        = demoState.totalCost + (modelB.unit_price - modelA.unit_price)
            * demoFixOne.quantity
    ∧ (handleModelChange demoState "f1" "mB" true).fixtures
        = [] ++ { demoFixOne with selected_model_id := "mB",
                                  selected_model := some modelB }
            :: [demoFixTwo] :=
  C6_cost_delta demoState "f1" "mB" [] [demoFixTwo] demoFixOne modelA modelB
    rfl rfl (by decide) (by decide) (by decide) (by decide) rfl

/-- State used to exercise handleModelChange with a model id absent from the
loaded catalog: one fixture selecting modelA, catalog containing only
modelA. -/
def soloState : ResultsState := initState [fixtureOne] [modelA]

def soloFix : ExtendedFixture := initFixture [modelA] fixtureOne

/-- C9 counterexample: invoking handleModelChange with the absent id "mX"
(persistence succeeding) is not a no-op — the in-memory fixture's
selected_model_id becomes "mX" and its resolved model becomes none, so the
state differs from the pre-call state. -/
theorem C9_counterexample :
    (handleModelChange soloState "f1" "mX" true).fixtures.map
        (fun f => (f.selected_model_id, f.selected_model))
      = [("mX", (none : Option FixtureModel))]
    ∧ soloState.fixtures.map (fun f => (f.selected_model_id, f.selected_model))
      = [("mA", some modelA)]
    ∧ (handleModelChange soloState "f1" "mX" true).fixtures
      ≠ soloState.fixtures := by
  refine ⟨rfl, rfl, ?_⟩
  decide

/-- C9 amended: when the new model id is absent from the loaded catalog
(`allModels.find` returns nothing) and the persistence update succeeds,
handleModelChange installs an unresolved reference on the matching fixture —
selected_model_id becomes the absent id and selected_model becomes none, so
the fixture thereafter contributes zero to the total — instead of leaving
the state unchanged. Every other fixture is untouched. -/
theorem C9_absent_id_installs_unresolved (s : ResultsState)
    (fid mid : String) (pre post : List ExtendedFixture) (f : ExtendedFixture)
    (hs : s.fixtures = pre ++ f :: post)
    (hfid : f.id = fid)
    (hpre : ∀ g ∈ pre, g.id ≠ fid)
    (hpost : ∀ g ∈ post, g.id ≠ fid)
    (hfind : s.allModels.find? (fun m => m.id == mid) = none) :
    (handleModelChange s fid mid true).fixtures
        = pre ++ { f with selected_model_id := mid,
                          selected_model := none } :: post
    ∧ lineCost { f with selected_model_id := mid, selected_model := none }
        = 0 := by
  refine ⟨?_, by simp [lineCost, resolvedPrice]⟩
  have hunfold : (handleModelChange s fid mid true).fixtures
      = s.fixtures.map
          (applySelection fid mid (s.allModels.find? (fun m => m.id == mid))) :=
    rfl
  rw [hunfold, hfind, hs, List.map_append, List.map_cons,
    map_applySelection_skip fid mid none pre hpre,
    map_applySelection_skip fid mid none post hpost,
    applySelection_hit fid mid none f hfid]

/-- Witness for the amended C9 at the concrete one-fixture state. -/
theorem C9_witness :
    (handleModelChange soloState "f1" "mX" true).fixtures
        = [] ++ { soloFix with selected_model_id := "mX",
                               selected_model := none } :: []
    ∧ lineCost { soloFix with selected_model_id := "mX",
                              selected_model := none } = 0 :=
  C9_absent_id_installs_unresolved soloState "f1" "mX" [] [] soloFix
    rfl rfl (by decide) (by decide) (by decide)

/-- applySelection never touches the recommendation list. -/
theorem applySelection_recommendations (fid mid : String)
    (nm : Option FixtureModel) (f : ExtendedFixture) :
    (applySelection fid mid nm f).recommendations = f.recommendations := by
  unfold applySelection
  split <;> rfl

/-- toggleFlag never touches the recommendation list. -/
theorem toggleFlag_recommendations (fid : String) (f : ExtendedFixture) :
    (toggleFlag fid f).recommendations = f.recommendations := by
  unfold toggleFlag
  split <;> rfl

/-- A reachable state that violates C3 as stated: starting from the loaded
two-fixture catalog state, swap fixture f1 to its recommended alternative
mB. handleModelChange does not recompute recommendations, so f1's
recommendation list still holds mB, its now-current selection. -/
def c3State : ResultsState := handleModelChange demoState "f1" "mB" true

/-- C3 counterexample: c3State is reachable (initial load followed by one
successful handleModelChange), yet one of its fixtures has a recommendation
whose id equals the fixture's currently selected model id. -/
theorem C3_counterexample :
    Reachable c3State
    ∧ c3State.fixtures.any
        (fun f => f.recommendations.any (fun m => m.id == f.selected_model_id))
      = true :=
  ⟨Reachable.modelChange demoState "f1" "mB" true
      (Reachable.init [fixtureOne, fixtureTwo] [modelA, modelB]),
   by decide⟩

/-- C3 amended: at every reachable state every fixture's recommendation list
has at most 3 entries, and at the initial load the list excludes the
fixture's then-selected model id; because handleModelChange keeps
recommendation lists unchanged, the exclusion is not maintained once the
selection is swapped to a recommended model. -/
theorem C3_amended_recommendations :
    (∀ s : ResultsState, Reachable s →
      ∀ f ∈ s.fixtures, f.recommendations.length ≤ 3)
    ∧ (∀ (fixturesData : List Fixture) (modelsData : List FixtureModel),
        ∀ f ∈ (initState fixturesData modelsData).fixtures,
        ∀ m ∈ f.recommendations, m.id ≠ f.selected_model_id) := by
  constructor
  · intro s hs
    induction hs with
    | init fixturesData modelsData =>
        intro f hf
        have hf' : f ∈ fixturesData.map (initFixture modelsData) := hf
        obtain ⟨fx, _, rfl⟩ := List.mem_map.mp hf'
        have : (initFixture modelsData fx).recommendations.length
            = min 3 ((modelsData.filter (fun model =>
                (some model.fixture_type
                    == fx.selected_model.map (·.fixture_type))
                  && !(model.id == fx.selected_model_id))).length) := by
          simp [initFixture]
        omega
    | modelChange s fid mid ok _ ih =>
        cases ok with
        | false => exact ih
        | true =>
            intro f hf
            have hf' : f ∈ s.fixtures.map
                (applySelection fid mid
                  (s.allModels.find? (fun m => m.id == mid))) := hf
            obtain ⟨g, hg, rfl⟩ := List.mem_map.mp hf'
            rw [applySelection_recommendations]
            exact ih g hg
    | toggle s fid _ ih =>
        intro f hf
        have hf' : f ∈ s.fixtures.map (toggleFlag fid) := hf
        obtain ⟨g, hg, rfl⟩ := List.mem_map.mp hf'
        rw [toggleFlag_recommendations]
        exact ih g hg
  · intro fixturesData modelsData f hf m hm
    have hf' : f ∈ fixturesData.map (initFixture modelsData) := hf
    obtain ⟨fx, _, rfl⟩ := List.mem_map.mp hf'
    have hm' : m ∈ (modelsData.filter (fun model =>
        (some model.fixture_type == fx.selected_model.map (·.fixture_type))
          && !(model.id == fx.selected_model_id))).take 3 := hm
    have hmem := List.mem_of_mem_take hm'
    have hp := (List.mem_filter.mp hmem).2
    have hne : (m.id == fx.selected_model_id) = false := by
      rcases Bool.and_eq_true _ _ |>.mp hp with ⟨_, hnot⟩
      simpa using hnot
    intro hcontra
    rw [show (initFixture modelsData fx).selected_model_id
        = fx.selected_model_id from rfl] at hcontra
    simp [hcontra] at hne

/-- Witness for the amended C3: the cap and the initial exclusion at the
concrete loaded state, for fixture f1 and its recommended model mB. -/
theorem C3_witness :
    demoFixOne.recommendations.length ≤ 3
    ∧ modelB.id ≠ demoFixOne.selected_model_id :=
  ⟨C3_amended_recommendations.1 demoState
      (Reachable.init [fixtureOne, fixtureTwo] [modelA, modelB])
      demoFixOne (by decide),
   C3_amended_recommendations.2 [fixtureOne, fixtureTwo] [modelA, modelB]
      demoFixOne (by decide) modelB (by decide)⟩

/-- Decimal digit characters of n, most significant first, with explicit
fuel so the definition reduces by computation; fuel n+1 always suffices
since the argument shrinks by a factor of 10 per step. -/
def natDigitsAux : ℕ → ℕ → List Char
  | 0, _ => []
  | fuel+1, n =>
      if n < 10 then [Nat.digitChar n]
      else natDigitsAux fuel (n / 10) ++ [Nat.digitChar (n % 10)]

def natDigits (n : ℕ) : List Char := natDigitsAux (n + 1) n

/-- Model of JavaScript `Number.prototype.toFixed(2)` for a whole number of
cents: integer digits, a dot, then exactly two fractional digits. -/
def toFixed2Nat (n : ℕ) : String :=
  (natDigits (n / 100)
    ++ '.' :: [Nat.digitChar (n % 100 / 10), Nat.digitChar (n % 100 % 10)]).asString

/-- Nearest number of cents for a nonnegative rational (round half up). -/
def roundCents (q : ℚ) : ℕ := (⌊q * 100 + 1/2⌋).toNat

/-- Model of JavaScript `x.toFixed(2)` over the rational embedding of the
IEEE numbers the source uses. -/
def toFixed2 (q : ℚ) : String :=
  if q < 0 then "-" ++ toFixed2Nat (roundCents (-q))
  else toFixed2Nat (roundCents q)

/-- The Project interface of src/src/lib/supabase.ts. -/
structure Project where
  id : String
  name : String
  file_name : String
  file_type : String
  upload_date : String
  total_fixtures : ℕ
  total_cost : ℚ
  average_lux : ℚ
  user_id : String
  created_at : String
deriving Repr, DecidableEq

/-- One body row of the quotation table (exportToPDF, Results.tsx lines
138-146): symbol, room, model name or "N/A", manufacturer or "N/A",
quantity, unit price (the literal "$0.00" when no model is resolved,
mirroring `unit_price.toFixed(2) || '0.00'`), and the line total
`$((unit_price || 0) * quantity).toFixed(2)`. -/
def exportRow (fixture : ExtendedFixture) : List String :=
  [ fixture.detected_symbol,
    fixture.room_name,
    (match fixture.selected_model with
     | some m => m.model_name
     | none => "N/A"),
    (match fixture.selected_model with
     | some m => m.manufacturer
     | none => "N/A"),
    toString fixture.quantity,
    "$" ++ (match fixture.selected_model with
            | some m => toFixed2 m.unit_price
            | none => "0.00"),
    "$" ++ toFixed2 (resolvedPrice fixture * fixture.quantity) ]

/-- The document exportToPDF (Results.tsx lines 127-162) produces: the
header texts, the autoTable head and body, the trailing total-cost text
below the table, and the save file name. The current date and the
generation timestamp are parameters of the model. -/
structure ExportDoc where
  title : String
  projectLine : String
  dateLine : String
  headerTotalLine : String
  tableHead : List String
  tableBody : List (List String)
  trailingTotalLine : String
  fileName : String
deriving Repr, DecidableEq

def exportToPDF (project : Option Project) (fixtures : List ExtendedFixture)
    (totalCost : ℚ) (dateStr : String) (timestamp : ℕ) : ExportDoc :=
  { title := "Lighting Analysis Quotation",
    projectLine := "Project: " ++ (match project with
      | some p => if p.name = "" then "N/A" else p.name
      | none => "N/A"),
    dateLine := "Date: " ++ dateStr,
    headerTotalLine := "Total Cost: $" ++ toFixed2 totalCost,
    tableHead := ["Symbol", "Room", "Model", "Manufacturer", "Qty",
                  "Unit Price", "Total"],
    tableBody := fixtures.map exportRow,
    trailingTotalLine := "Total Project Cost: $" ++ toFixed2 totalCost,
    fileName := (match project with
      | some p => if p.name = "" then "quotation" else p.name
      | none => "quotation") ++ "_" ++ toString timestamp ++ ".pdf" }

/-- The two-decimal money format of the spec, `^\$\d+\.\d\x7b2\x7d$`: a
dollar sign, at least one digit, a dot, exactly two digits. -/
def isMoneyFormat (s : String) : Bool :=
  match s.data with
  | '$' :: rest =>
      !(rest.takeWhile Char.isDigit).isEmpty
        && (match rest.dropWhile Char.isDigit with
            | '.' :: d1 :: d2 :: [] => d1.isDigit && d2.isDigit
            | _ => false)
  | _ => false

/-- Nat.digitChar yields a decimal digit character below 10. -/
theorem digitChar_isDigit : ∀ k, k < 10 → (Nat.digitChar k).isDigit = true := by
  decide

/-- natDigitsAux with positive fuel never returns the empty list. -/
theorem natDigitsAux_ne_nil (fuel n : ℕ) : natDigitsAux (fuel + 1) n ≠ [] := by
  unfold natDigitsAux
  split
  · simp
  · simp

/-- natDigits never returns the empty list. -/
theorem natDigits_ne_nil (n : ℕ) : natDigits n ≠ [] :=
  natDigitsAux_ne_nil n n

/-- Every character natDigitsAux emits is a decimal digit. -/
theorem natDigitsAux_all_isDigit (fuel : ℕ) :
    ∀ n, ∀ c ∈ natDigitsAux fuel n, c.isDigit = true := by
  induction fuel with
  | zero => intro n c hc; simp [natDigitsAux] at hc
  | succ fuel ih =>
      intro n c hc
      unfold natDigitsAux at hc
      by_cases h : n < 10
      · rw [if_pos h] at hc
        rcases List.mem_singleton.mp hc with rfl
        exact digitChar_isDigit n h
      · rw [if_neg h] at hc
        rcases List.mem_append.mp hc with hl | hr
        · exact ih (n / 10) c hl
        · rcases List.mem_singleton.mp hr with rfl
          exact digitChar_isDigit _ (Nat.mod_lt n (by omega))

/-- Every character natDigits emits is a decimal digit. -/
theorem natDigits_all_isDigit (n : ℕ) :
    ∀ c ∈ natDigits n, c.isDigit = true :=
  natDigitsAux_all_isDigit (n + 1) n

/-- takeWhile and dropWhile split a list of satisfying characters followed
by a failing character exactly at that character. -/
theorem takeWhile_append_stop (p : Char → Bool) (l1 l2 : List Char) (c : Char)
    (h1 : ∀ x ∈ l1, p x = true) (hc : p c = false) :
    (l1 ++ c :: l2).takeWhile p = l1
    ∧ (l1 ++ c :: l2).dropWhile p = c :: l2 := by
  induction l1 with
  | nil => simp [List.takeWhile_cons, List.dropWhile_cons, hc]
  | cons a t ih =>
      have ha : p a = true := h1 a (List.mem_cons_self a t)
      obtain ⟨ht, hd⟩ := ih (fun x hx => h1 x (List.mem_cons_of_mem a hx))
      simp [List.takeWhile_cons, List.dropWhile_cons, ha, ht, hd]

/-- A dollar sign followed by a nonempty digit run, a dot and two digits
satisfies the money format. -/
theorem isMoneyFormat_shape (intPart : List Char) (d1 d2 : Char)
    (hne : intPart ≠ []) (hdig : ∀ x ∈ intPart, x.isDigit = true)
    (h1 : d1.isDigit = true) (h2 : d2.isDigit = true) :
    isMoneyFormat ⟨'$' :: (intPart ++ '.' :: [d1, d2])⟩ = true := by
  have hdot : ('.' : Char).isDigit = false := by decide
  obtain ⟨htake, hdrop⟩ :=
    takeWhile_append_stop Char.isDigit intPart [d1, d2] '.' hdig hdot
  cases intPart with
  | nil => exact absurd rfl hne
  | cons a t =>
      have hgoal : isMoneyFormat ⟨'$' :: ((a :: t) ++ '.' :: [d1, d2])⟩
          = (!(((a :: t) ++ '.' :: [d1, d2]).takeWhile Char.isDigit).isEmpty
              && (match ((a :: t) ++ '.' :: [d1, d2]).dropWhile Char.isDigit with
                  | '.' :: e1 :: e2 :: [] => e1.isDigit && e2.isDigit
                  | _ => false)) := rfl
      rw [hgoal, htake, hdrop]
      simp [h1, h2]

/-- Rendering a nonnegative rational with the modelled toFixed(2) and a
dollar sign always matches the two-decimal money format. -/
theorem isMoneyFormat_toFixed2 (q : ℚ) (h : 0 ≤ q) :
    isMoneyFormat ("$" ++ toFixed2 q) = true := by
  rw [toFixed2, if_neg (not_lt.mpr h)]
  have heq : ("$" ++ toFixed2Nat (roundCents q))
      = (⟨'$' :: (natDigits (roundCents q / 100)
          ++ '.' :: [Nat.digitChar (roundCents q % 100 / 10),
                     Nat.digitChar (roundCents q % 100 % 10)])⟩ : String) := rfl
  rw [heq]
  exact isMoneyFormat_shape _ _ _ (natDigits_ne_nil _)
    (natDigits_all_isDigit _)
    (digitChar_isDigit _ (by omega))
    (digitChar_isDigit _ (by omega))

/-- Zero rationals round to zero cents. -/
theorem roundCents_zero : roundCents 0 = 0 := by
  have h : ((0 : ℚ) * 100 + 1/2) = 1/2 := by norm_num
  rw [roundCents, h]
  norm_num [Int.floor_eq_zero_iff, Set.mem_Ico]

/-- The modelled toFixed(2) renders zero as "0.00". -/
theorem toFixed2_zero : toFixed2 0 = "0.00" := by
  rw [toFixed2, if_neg (by norm_num), roundCents_zero]
  decide

/-- A fixture whose selection resolves to no model, for exercising the
placeholder branches of the export. -/
def noModelFixture : ExtendedFixture :=
  { id := "f-n", project_id := "p1", room_name := "Hallway",
    detected_symbol := "LIGHT_03", selected_model_id := "m-gone", quantity := 4,
    lux_level := 320, selected_model := none,
    recommendations := [], showRecommendations := false }

/-- C8 counterexample: in the export of a snapshot holding a fixture with no
resolved model, the unit-price cell — a field derived from the missing
model — renders as the literal "$0.00", not as the placeholder "N/A"; only
the text cells (model name, manufacturer) render "N/A". This refutes the
claim that every field derived from a missing model renders as "N/A". -/
theorem C8_counterexample :
    ((exportToPDF none [noModelFixture] 0 "2026-10-11" 0).tableBody.headD
        []).getD 5 "" = "$0.00"
    ∧ ((exportToPDF none [noModelFixture] 0 "2026-10-11" 0).tableBody.headD
        []).getD 2 "" = "N/A"
    ∧ ("$0.00" : String) ≠ "N/A" := by
  refine ⟨by decide, by decide, by decide⟩

/-- C8 amended: for every snapshot, the export's table has exactly one body
row per fixture (body row count = fixture count) and the total appears as
one trailing total-cost line below the table rather than as an extra table
row; every money cell — the unit-price and line-total cells of each row and
the total lines, for the nonnegative prices the data model guarantees —
matches the format dollar-digits-dot-two-digits; and the fields of a
missing model render as "N/A" in the model-name and manufacturer cells while
the two money cells of such a row render as "$0.00". -/
theorem C8_export_format (project : Option Project)
    (fixtures : List ExtendedFixture) (totalCost : ℚ) (dateStr : String)
    (timestamp : ℕ)
    (hp : ∀ f ∈ fixtures, 0 ≤ resolvedPrice f)
    (ht : 0 ≤ totalCost) :
    (exportToPDF project fixtures totalCost dateStr timestamp).tableBody.length
        = fixtures.length
    ∧ (exportToPDF project fixtures totalCost dateStr timestamp).trailingTotalLine
        = "Total Project Cost: $" ++ toFixed2 totalCost
    ∧ isMoneyFormat ("$" ++ toFixed2 totalCost) = true
    ∧ (∀ f ∈ fixtures,
        isMoneyFormat ((exportRow f).getD 5 "") = true
        ∧ isMoneyFormat ((exportRow f).getD 6 "") = true)
    ∧ (∀ f ∈ fixtures, f.selected_model = none →
        (exportRow f).getD 2 "" = "N/A"
        ∧ (exportRow f).getD 3 "" = "N/A"
        ∧ (exportRow f).getD 5 "" = "$0.00"
        ∧ (exportRow f).getD 6 "" = "$0.00") := by
  refine ⟨by simp [exportToPDF], rfl, isMoneyFormat_toFixed2 totalCost ht,
    ?_, ?_⟩
  · intro f hf
    constructor
    · cases hsel : f.selected_model with
      | none => simp [exportRow, hsel]; decide
      | some m =>
          have hm : 0 ≤ m.unit_price := by
            have := hp f hf
            rw [resolvedPrice, hsel] at this
            exact this
          simpa [exportRow, hsel] using isMoneyFormat_toFixed2 m.unit_price hm
    · have hline : 0 ≤ resolvedPrice f * f.quantity :=
        mul_nonneg (hp f hf) (by positivity)
      simpa [exportRow] using
        isMoneyFormat_toFixed2 (resolvedPrice f * f.quantity) hline
  · intro f _ hsel
    refine ⟨by simp [exportRow, hsel], by simp [exportRow, hsel],
      by simp [exportRow, hsel], ?_⟩
    have hzero : resolvedPrice f = 0 := by simp [resolvedPrice, hsel]
    have hcell : (exportRow f).getD 6 ""
        = "$" ++ toFixed2 (resolvedPrice f * f.quantity) := rfl
    rw [hcell, hzero, zero_mul, toFixed2_zero]
    decide

/-- Witness for the amended C8 at a two-fixture snapshot (one resolved at
price 20, one unresolved): the body has one row per fixture and the
unresolved row's unit-price cell is money-formatted. -/
theorem C8_witness :
    (exportToPDF none [demoFixOne, noModelFixture] 40
        "2026-10-11" 42).tableBody.length
      = [demoFixOne, noModelFixture].length
    ∧ isMoneyFormat ((exportRow noModelFixture).getD 5 "") = true :=
  ⟨(C8_export_format none [demoFixOne, noModelFixture] 40
      "2026-10-11" 42 (by decide) (by decide)).1,
   ((C8_export_format none [demoFixOne, noModelFixture] 40
      "2026-10-11" 42 (by decide) (by decide)).2.2.2.1 noModelFixture
      (by decide)).1⟩

/-- The count drawn in handleSubmit (Upload.tsx line 107),
`Math.floor(Math.random() * 50) + 10`, with the random integer below 50
modelled as `r % 50`. -/
def drawTotalFixtures (r : ℕ) : ℕ := r % 50 + 10

/-- The room names of Upload.tsx line 136. -/
def uploadRooms : List String :=
  ["Office 1", "Conference Room", "Lobby", "Hallway", "Workshop"]

/-- The detected symbols of Upload.tsx line 137. -/
def uploadSymbols : List String :=
  ["LIGHT_01", "LIGHT_02", "LIGHT_03", "DOWNLIGHT", "PANEL_600"]

/-- Fallback catalog entry for the random index lookup (the source would
throw on an empty catalog; the claims below only concern row counts). -/
def emptyModel : FixtureModel :=
  { id := "", model_name := "", manufacturer := "", fixture_type := "",
    wattage := 0, lumens := 0, unit_price := 0, description := "" }

/-- One row pushed into fixturesData (Upload.tsx lines 142-149). -/
structure FixtureInsertRow where
  project_id : String
  room_name : String
  detected_symbol : String
  selected_model_id : String
  quantity : ℕ
  lux_level : ℕ
deriving Repr, DecidableEq

/-- The project record inserted by handleSubmit (Upload.tsx lines 112-124):
total_fixtures is the drawn count, total_cost is count × 35.50, average_lux
is a draw in [300, 499]. -/
structure ProjectInsertRow where
  name : String
  file_name : String
  file_type : String
  total_fixtures : ℕ
  total_cost : ℚ
  average_lux : ℕ
  user_id : String
deriving Repr, DecidableEq

/-- The fixture batch handleSubmit builds (Upload.tsx lines 139-150): the
loop runs for i from 0 below min(totalFixtures, 15), drawing a random room,
symbol, catalog model, quantity in [1,5] and lux in [300,499]; the draw at
step i is modelled by the choice functions applied at i, reduced into the
range the source's `Math.floor(Math.random() * k)` guarantees. -/
def generateFixturesData (projectId : String) (totalFixtures : ℕ)
    (models : List FixtureModel)
    (roomPick symbolPick modelPick qtyDraw luxDraw : ℕ → ℕ) :
    List FixtureInsertRow :=
  (List.range (min totalFixtures 15)).map (fun i =>
    { project_id := projectId,
      room_name := uploadRooms.getD (roomPick i % uploadRooms.length) "",
      detected_symbol :=
        uploadSymbols.getD (symbolPick i % uploadSymbols.length) "",
      selected_model_id :=
        (models.getD (modelPick i % models.length) emptyModel).id,
      quantity := qtyDraw i % 5 + 1,
      lux_level := luxDraw i % 200 + 300 })

/-- The pair of inserts a successful handleSubmit issues: the project row
(with its placeholder aggregates) and the capped fixture batch. -/
def handleSubmitInserts (projectName fileName fileType projectId : String)
    (randTotal randLux : ℕ) (models : List FixtureModel)
    (roomPick symbolPick modelPick qtyDraw luxDraw : ℕ → ℕ) :
    ProjectInsertRow × List FixtureInsertRow :=
  let totalFixtures := drawTotalFixtures randTotal
  ({ name := projectName, file_name := fileName, file_type := fileType,
     total_fixtures := totalFixtures,
     total_cost := (totalFixtures : ℚ) * (71/2),
     average_lux := randLux % 200 + 300,
     user_id := "00000000-0000-0000-0000-000000000000" },
   generateFixturesData projectId totalFixtures models
     roomPick symbolPick modelPick qtyDraw luxDraw)

/-- C10: a successful upload inserts exactly min(totalFixtures, 15) fixture
rows, where totalFixtures — the project row's stored total_fixtures — is
drawn between 10 and 59; hence whenever the draw exceeds 15 the stored
count is strictly greater than the number of fixture rows persisted. -/
theorem C10_upload_inserts_capped (projectName fileName fileType projectId :
    String) (randTotal randLux : ℕ) (models : List FixtureModel)
    (roomPick symbolPick modelPick qtyDraw luxDraw : ℕ → ℕ) :
    (handleSubmitInserts projectName fileName fileType projectId randTotal
        randLux models roomPick symbolPick modelPick qtyDraw luxDraw).2.length
      = min (handleSubmitInserts projectName fileName fileType projectId
          randTotal randLux models roomPick symbolPick modelPick qtyDraw
          luxDraw).1.total_fixtures 15
    ∧ 10 ≤ (handleSubmitInserts projectName fileName fileType projectId
        randTotal randLux models roomPick symbolPick modelPick qtyDraw
        luxDraw).1.total_fixtures
    ∧ (handleSubmitInserts projectName fileName fileType projectId randTotal
        randLux models roomPick symbolPick modelPick qtyDraw
        luxDraw).1.total_fixtures ≤ 59
    ∧ (15 < (handleSubmitInserts projectName fileName fileType projectId
          randTotal randLux models roomPick symbolPick modelPick qtyDraw
          luxDraw).1.total_fixtures →
        (handleSubmitInserts projectName fileName fileType projectId
            randTotal randLux models roomPick symbolPick modelPick qtyDraw
            luxDraw).2.length
          < (handleSubmitInserts projectName fileName fileType projectId
              randTotal randLux models roomPick symbolPick modelPick qtyDraw
              luxDraw).1.total_fixtures) := by
  have hlen : (handleSubmitInserts projectName fileName fileType projectId
      randTotal randLux models roomPick symbolPick modelPick qtyDraw
      luxDraw).2.length = min (drawTotalFixtures randTotal) 15 := by
    simp [handleSubmitInserts, generateFixturesData]
  have hrange : 10 ≤ drawTotalFixtures randTotal
      ∧ drawTotalFixtures randTotal ≤ 59 := by
    unfold drawTotalFixtures
    omega
  refine ⟨hlen, hrange.1, hrange.2, fun hgt => ?_⟩
  rw [hlen]
  have : (handleSubmitInserts projectName fileName fileType projectId
      randTotal randLux models roomPick symbolPick modelPick qtyDraw
      luxDraw).1.total_fixtures = drawTotalFixtures randTotal := rfl
  rw [this] at hgt ⊢
  omega

/-- Witness for C10 with the draw landing on 42 (total_fixtures 52 > 15,
only 15 rows generated). -/
theorem C10_witness :
    (handleSubmitInserts "P" "plan.dwg" "dwg" "p1" 42 7 [modelA, modelB]
        id id id id id).2.length
      = min (handleSubmitInserts "P" "plan.dwg" "dwg" "p1" 42 7
          [modelA, modelB] id id id id id).1.total_fixtures 15
    ∧ 15 < (handleSubmitInserts "P" "plan.dwg" "dwg" "p1" 42 7
        [modelA, modelB] id id id id id).1.total_fixtures
    ∧ (handleSubmitInserts "P" "plan.dwg" "dwg" "p1" 42 7 [modelA, modelB]
        id id id id id).2.length
      < (handleSubmitInserts "P" "plan.dwg" "dwg" "p1" 42 7 [modelA, modelB]
          id id id id id).1.total_fixtures :=
  ⟨(C10_upload_inserts_capped "P" "plan.dwg" "dwg" "p1" 42 7 [modelA, modelB]
      id id id id id).1,
   by decide,
   (C10_upload_inserts_capped "P" "plan.dwg" "dwg" "p1" 42 7 [modelA, modelB]
      id id id id id).2.2.2 (by decide)⟩
